import Mathlib

/-!
Verification of the document-extraction-and-validation pipeline of the
ship-parse-flow repository.

The core under study is the `extract-shipment-data` edge function
(`serve` handler) and the ingestion side (`handleEmailExtraction`,
`extractDataFromFile`, `uploadFile` in the FileUpload component).

We embed the handler as a pure function over an environment `Env` that
records the behaviour of the external collaborators (record store,
upstream model call, JSON parser), and an `Outcome` that records every
externally visible effect: whether the parsing-log row was created,
the exact list of updates applied to it, whether the upstream call was
issued, the inserted shipment row (if any), and the HTTP-level result.
-/

namespace ShipParse

/-- A JSON value, as far as the handler inspects one.  JavaScript
truthiness on these values is what the handler's `!x` and `x || null`
expressions compute with. -/
inductive JVal where
  | jnull
  | jbool (b : Bool)
  | jnum (q : Rat)
  | jstr (s : String)
deriving DecidableEq, Repr

/-- JavaScript falsiness of a JSON value: `null`, `false`, `0` and the
empty string are falsy. -/
def JVal.falsy : JVal → Bool
  | .jnull => true
  | .jbool b => !b
  | .jnum q => q == 0
  | .jstr s => s == ""

/-- JavaScript falsiness of a possibly-absent field: an absent field
(`undefined`) is falsy; a present one is falsy iff its value is. -/
def jsFalsy : Option JVal → Bool
  | none => true
  | some v => v.falsy

/-- The parsed upstream payload: the six fields the handler reads from
`extractedData`.  `none` models an absent (`undefined`) field. -/
structure ExtractedData where
  customer_name : Option JVal
  address : Option JVal
  tracking_id : Option JVal
  delivery_date : Option JVal
  package_weight : Option JVal
  notes : Option JVal
deriving DecidableEq, Repr

/-- The JavaScript expression `x || null` used for the optional columns
of the shipment insert: the value when truthy, `null` when the field is
absent or falsy. -/
def jsOrNull (x : Option JVal) : JVal :=
  match x with
  | none => .jnull
  | some v => if v.falsy then .jnull else v

/-- A present field is inserted as its value; an absent (`undefined`)
field is stored as SQL NULL by the record store. -/
def undefToNull (x : Option JVal) : JVal :=
  match x with
  | none => .jnull
  | some v => v

/-- The row the handler inserts into `shipment_orders`. -/
structure ShipmentRow where
  customer_name : JVal
  address : JVal
  tracking_id : JVal
  delivery_date : JVal
  package_weight : JVal
  notes : JVal
  original_file_url : Option String
  original_file_name : String
  parsed_by_ai : Bool
  status : String
deriving DecidableEq, Repr

/-- Status values of a `parsing_logs` row (the ExtractionAttempt). -/
inductive LogStatus where
  | processing
  | success
  | failed
deriving DecidableEq, Repr

/-- The `extracted_data` snapshot written into a log update: either the
wrapper object with single field `raw_response` holding the upstream
text (on parse failure), or the parsed object itself. -/
inductive Snapshot where
  | rawResponse (text : String)
  | parsed (d : ExtractedData)
deriving DecidableEq, Repr

/-- One `update` applied to the attempt's `parsing_logs` row. -/
structure LogUpdate where
  status : LogStatus
  error_message : Option String
  extracted_data : Option Snapshot
deriving DecidableEq, Repr

/-- The HTTP-level result of the handler: the 200 success body carrying
the inserted shipment row and the extracted data, or the 500 body
carrying `error.message` from the catch block. -/
inductive ExtractResult where
  | success (shipmentOrder : ShipmentRow) (extractedData : ExtractedData)
  | failure (errorMessage : String)
deriving DecidableEq, Repr

/-- The behaviour of the external collaborators during one call:
whether the `parsing_logs` insert fails (and with which message),
whether the OpenAI fetch returns ok and with which HTTP status, the
text content of the first choice, the result of `JSON.parse` on that
text (`none` = throws), and whether the `shipment_orders` insert fails
(and with which message). -/
structure Env where
  logInsertError : Option String
  upstreamOk : Bool
  upstreamStatus : Nat
  upstreamText : String
  parseResult : Option ExtractedData
  shipmentInsertError : Option String
deriving DecidableEq, Repr

/-- The request body with fields fileContent, fileName, fileUrl. -/
structure RequestInput where
  fileContent : String
  fileName : String
  fileUrl : Option String
deriving DecidableEq, Repr

/-- Every externally visible effect of one handler call. -/
structure Outcome where
  result : ExtractResult
  logCreated : Bool
  upstreamCalled : Bool
  logUpdates : List LogUpdate
  shipmentInserted : Option ShipmentRow
deriving DecidableEq, Repr

/-- The shipment row built by the handler's `shipment_orders` insert:
required fields verbatim, optional fields through `|| null`, file
name and url copied from the request, `parsed_by_ai: true`,
`status: pending`. -/
def mkShipmentRow (input : RequestInput) (d : ExtractedData) : ShipmentRow :=
  { customer_name := undefToNull d.customer_name
    address := undefToNull d.address
    tracking_id := jsOrNull d.tracking_id
    delivery_date := jsOrNull d.delivery_date
    package_weight := jsOrNull d.package_weight
    notes := jsOrNull d.notes
    original_file_url := input.fileUrl
    original_file_name := input.fileName
    parsed_by_ai := true
    status := "pending" }

/-- The `serve` handler of the `extract-shipment-data` function,
branch by branch:
1. insert the `parsing_logs` row with status processing; on error throw
   (caught: 500 with the store's message, nothing else happens);
2. call the upstream model; if `!response.ok` throw
   `OpenAI API error: <status>` (caught: 500, log not updated);
3. `JSON.parse` the first choice's content; on throw update the log to
   failed with the raw text snapshot, then throw (caught: 500);
4. if `!customer_name || !address` update the log to failed with the
   parsed snapshot, then throw (caught: 500);
5. insert the shipment row; on error update the log to failed with the
   store's message, then throw (caught: 500);
6. update the log to success and return 200 with the row. -/
def extractShipmentData (input : RequestInput) (env : Env) : Outcome :=
  match env.logInsertError with
  | some msg =>
      { result := .failure msg
        logCreated := false
        upstreamCalled := false
        logUpdates := []
        shipmentInserted := none }
  | none =>
      if !env.upstreamOk then
        { result := .failure ("OpenAI API error: " ++ toString env.upstreamStatus)
          logCreated := true
          upstreamCalled := true
          logUpdates := []
          shipmentInserted := none }
      else
        match env.parseResult with
        | none =>
            { result := .failure "AI response was not valid JSON"
              logCreated := true
              upstreamCalled := true
              logUpdates := [{ status := .failed
                               error_message := some "Failed to parse AI response as JSON"
                               extracted_data := some (.rawResponse env.upstreamText) }]
              shipmentInserted := none }
        | some d =>
            if jsFalsy d.customer_name || jsFalsy d.address then
              { result := .failure "Missing required fields: customer_name and address"
                logCreated := true
                upstreamCalled := true
                logUpdates := [{ status := .failed
                                 error_message :=
                                   some "Missing required fields: customer_name and address"
                                 extracted_data := some (.parsed d) }]
                shipmentInserted := none }
            else
              match env.shipmentInsertError with
              | some msg =>
                  { result := .failure msg
                    logCreated := true
                    upstreamCalled := true
                    logUpdates := [{ status := .failed
                                     error_message := some msg
                                     extracted_data := some (.parsed d) }]
                    shipmentInserted := none }
              | none =>
                  { result := .success (mkShipmentRow input d) d
                    logCreated := true
                    upstreamCalled := true
                    logUpdates := [{ status := .success
                                     error_message := none
                                     extracted_data := some (.parsed d) }]
                    shipmentInserted := some (mkShipmentRow input d) }

/-- The body `extractDataFromFile` sends to the edge function:
`fileUrl: fileUrl || null`, so an absent or empty url becomes null. -/
def extractDataFromFile (fileContent fileName : String)
    (fileUrl : Option String) : RequestInput :=
  { fileContent := fileContent
    fileName := fileName
    fileUrl :=
      match fileUrl with
      | none => none
      | some u => if u == "" then none else some u }

/-- Effects of the email (pasted-text) ingestion path: which body was
sent to the edge function (`none` when the early-return guard fires)
and the list of file-store writes performed. -/
structure EmailOutcome where
  invoked : Option RequestInput
  storeWrites : List String
deriving DecidableEq, Repr

/-- JavaScript `trim()`: the string with leading and trailing
whitespace removed, embedded over the character list. -/
def jsTrim (s : String) : String :=
  String.mk (((s.toList.dropWhile Char.isWhitespace).reverse.dropWhile
    Char.isWhitespace).reverse)

/-- The `handleEmailExtraction` flow: if the trimmed content is empty,
toast an error and return without calling anything; otherwise build the synthetic
file name from the current time and invoke the edge function with no
file url.  No file-store interaction on this path. -/
def handleEmailExtraction (emailContent : String) (now : Nat) : EmailOutcome :=
  if jsTrim emailContent == "" then
    { invoked := none, storeWrites := [] }
  else
    { invoked := some (extractDataFromFile emailContent
        ("email-" ++ toString now ++ ".txt") none)
      storeWrites := [] }

/-- A concrete request body used for concrete evaluations. -/
def inputA : RequestInput :=
  { fileContent := "Ship to Jane Doe, 12 Oak St, 2.5kg"
    fileName := "order.pdf"
    fileUrl := some "https://files.example/order.pdf" }

/-- A parsed payload whose required fields are non-empty strings and
whose `package_weight` is present but equal to 0 (a falsy value). -/
def dZeroWeight : ExtractedData :=
  { customer_name := some (.jstr "Jane Doe")
    address := some (.jstr "12 Oak St")
    tracking_id := none
    delivery_date := none
    package_weight := some (.jnum 0)
    notes := none }

/-- An environment in which every collaborator succeeds and the
upstream text parses to `dZeroWeight`. -/
def envZeroWeight : Env :=
  { logInsertError := none
    upstreamOk := true
    upstreamStatus := 200
    upstreamText := "json"
    parseResult := some dZeroWeight
    shipmentInsertError := none }

theorem jsOrNull_none : jsOrNull none = .jnull := rfl

theorem jsOrNull_some_truthy (v : JVal) (h : v.falsy = false) :
    jsOrNull (some v) = v := by
  simp [jsOrNull, h]

theorem jsOrNull_some_falsy (v : JVal) (h : v.falsy = true) :
    jsOrNull (some v) = .jnull := by
  simp [jsOrNull, h]

/-- C7: when persisting the initial attempt (the `parsing_logs` insert
with status processing) fails, the flow aborts at once: the store's
error is surfaced directly as the failure result, no upstream call is
issued, no log update is applied, and no shipment row is written. -/
theorem c7_log_write_error_aborts (input : RequestInput) (env : Env) (msg : String)
    (h : env.logInsertError = some msg) :
    extractShipmentData input env =
      { result := .failure msg
        logCreated := false
        upstreamCalled := false
        logUpdates := []
        shipmentInserted := none } := by
  simp [extractShipmentData, h]

theorem c7_log_write_error_aborts_witness :
    (({ logInsertError := some "db down", upstreamOk := true, upstreamStatus := 200,
        upstreamText := "", parseResult := none, shipmentInsertError := none } : Env)).logInsertError
      = some "db down" ∧
    extractShipmentData inputA
      { logInsertError := some "db down", upstreamOk := true, upstreamStatus := 200,
        upstreamText := "", parseResult := none, shipmentInsertError := none } =
      { result := .failure "db down"
        logCreated := false
        upstreamCalled := false
        logUpdates := []
        shipmentInserted := none } :=
  ⟨rfl, c7_log_write_error_aborts inputA _ "db down" rfl⟩

/-- C5: when the upstream call succeeds but its text does not parse as
JSON, the flow fails with the parse error, and the attempt is updated
exactly once, to status failed with error message
"Failed to parse AI response as JSON" and the raw-response snapshot;
no shipment row is written. -/
theorem c5_invalid_format (input : RequestInput) (env : Env)
    (hlog : env.logInsertError = none) (hok : env.upstreamOk = true)
    (hparse : env.parseResult = none) :
    extractShipmentData input env =
      { result := .failure "AI response was not valid JSON"
        logCreated := true
        upstreamCalled := true
        logUpdates := [{ status := .failed
                         error_message := some "Failed to parse AI response as JSON"
                         extracted_data := some (.rawResponse env.upstreamText) }]
        shipmentInserted := none } := by
  simp [extractShipmentData, hlog, hok, hparse]

theorem c5_invalid_format_witness :
    (({ logInsertError := none, upstreamOk := true, upstreamStatus := 200,
        upstreamText := "Sorry, I cannot process this.", parseResult := none,
        shipmentInsertError := none } : Env)).parseResult = none ∧
    extractShipmentData inputA
      { logInsertError := none, upstreamOk := true, upstreamStatus := 200,
        upstreamText := "Sorry, I cannot process this.", parseResult := none,
        shipmentInsertError := none } =
      { result := .failure "AI response was not valid JSON"
        logCreated := true
        upstreamCalled := true
        logUpdates := [{ status := .failed
                         error_message := some "Failed to parse AI response as JSON"
                         extracted_data := some (.rawResponse "Sorry, I cannot process this.") }]
        shipmentInserted := none } :=
  ⟨rfl, c5_invalid_format inputA _ rfl rfl rfl⟩

/-- C4: when the parsed payload lacks `customer_name` or `address`, or
either is the empty string, the flow fails with the missing-fields
error, the attempt is updated exactly once, to status failed with that
error message and the parsed object as snapshot, and no shipment row is
written. -/
theorem c4_missing_fields (input : RequestInput) (env : Env) (d : ExtractedData)
    (hlog : env.logInsertError = none) (hok : env.upstreamOk = true)
    (hparse : env.parseResult = some d)
    (hmiss : d.customer_name = none ∨ d.customer_name = some (.jstr "") ∨
             d.address = none ∨ d.address = some (.jstr "")) :
    extractShipmentData input env =
      { result := .failure "Missing required fields: customer_name and address"
        logCreated := true
        upstreamCalled := true
        logUpdates := [{ status := .failed
                         error_message :=
                           some "Missing required fields: customer_name and address"
                         extracted_data := some (.parsed d) }]
        shipmentInserted := none } := by
  have hfalsy : (jsFalsy d.customer_name || jsFalsy d.address) = true := by
    rcases hmiss with h | h | h | h <;> simp [jsFalsy, JVal.falsy, h]
  simp [extractShipmentData, hlog, hok, hparse, hfalsy]

theorem c4_missing_fields_witness :
    (({ customer_name := none, address := some (.jstr "12 Oak St"), tracking_id := none,
        delivery_date := none, package_weight := none, notes := none } : ExtractedData)).customer_name
      = none ∧
    extractShipmentData inputA
      { logInsertError := none, upstreamOk := true, upstreamStatus := 200,
        upstreamText := "t",
        parseResult := some
          { customer_name := none, address := some (.jstr "12 Oak St"), tracking_id := none,
            delivery_date := none, package_weight := none, notes := none },
        shipmentInsertError := none } =
      { result := .failure "Missing required fields: customer_name and address"
        logCreated := true
        upstreamCalled := true
        logUpdates := [{ status := .failed
                         error_message :=
                           some "Missing required fields: customer_name and address"
                         extracted_data := some (.parsed
                           { customer_name := none, address := some (.jstr "12 Oak St"),
                             tracking_id := none, delivery_date := none,
                             package_weight := none, notes := none }) }]
        shipmentInserted := none } :=
  ⟨rfl, c4_missing_fields inputA _ _ rfl rfl rfl (Or.inl rfl)⟩

/-- C6: when the payload passed validation but the `shipment_orders`
insert fails, the flow fails with the store's error message, the
attempt is updated exactly once, to status failed with that message and
the parsed object as snapshot, and no shipment row exists. -/
theorem c6_store_error (input : RequestInput) (env : Env) (d : ExtractedData) (msg : String)
    (hlog : env.logInsertError = none) (hok : env.upstreamOk = true)
    (hparse : env.parseResult = some d)
    (hcn : jsFalsy d.customer_name = false) (had : jsFalsy d.address = false)
    (hins : env.shipmentInsertError = some msg) :
    extractShipmentData input env =
      { result := .failure msg
        logCreated := true
        upstreamCalled := true
        logUpdates := [{ status := .failed
                         error_message := some msg
                         extracted_data := some (.parsed d) }]
        shipmentInserted := none } := by
  simp [extractShipmentData, hlog, hok, hparse, hcn, had, hins]

theorem c6_store_error_witness :
    jsFalsy dZeroWeight.customer_name = false ∧
    extractShipmentData inputA
      { logInsertError := none, upstreamOk := true, upstreamStatus := 200,
        upstreamText := "t", parseResult := some dZeroWeight,
        shipmentInsertError := some "duplicate key value" } =
      { result := .failure "duplicate key value"
        logCreated := true
        upstreamCalled := true
        logUpdates := [{ status := .failed
                         error_message := some "duplicate key value"
                         extracted_data := some (.parsed dZeroWeight) }]
        shipmentInserted := none } :=
  ⟨rfl, c6_store_error inputA _ dZeroWeight "duplicate key value" rfl rfl rfl rfl rfl rfl⟩

/-- C3 counterexample: a payload with non-empty `customer_name` and
`address` and `package_weight` present with value 0.  Extraction
succeeds, but the persisted row stores null for `package_weight`, not
the payload's value 0 — so the stored fields do not all equal the
parsed payload's fields, contrary to the claim as stated. -/
theorem c3_zero_weight_stored_null :
    dZeroWeight.package_weight = some (.jnum 0) ∧
    jsFalsy dZeroWeight.customer_name = false ∧
    jsFalsy dZeroWeight.address = false ∧
    (extractShipmentData inputA envZeroWeight).shipmentInserted.map ShipmentRow.package_weight
      = some .jnull ∧
    (JVal.jnull ≠ JVal.jnum 0) := by
  refine ⟨rfl, rfl, rfl, rfl, ?_⟩
  decide

/-- C3 (amended): for every parsed payload whose `customer_name` and
`address` are truthy (in particular non-empty strings), with a
successful shipment insert, the flow returns the persisted row and
updates the attempt exactly once to status success with the parsed
object as snapshot.  The row copies required fields verbatim, stores
each optional field's value when it is truthy and null when it is
absent or falsy, has status pending, parsed_by_ai true, and file
name/url copied from the request. -/
theorem c3_success_roundtrip (input : RequestInput) (env : Env) (d : ExtractedData)
    (hlog : env.logInsertError = none) (hok : env.upstreamOk = true)
    (hparse : env.parseResult = some d)
    (hcn : jsFalsy d.customer_name = false) (had : jsFalsy d.address = false)
    (hins : env.shipmentInsertError = none) :
    extractShipmentData input env =
      { result := .success (mkShipmentRow input d) d
        logCreated := true
        upstreamCalled := true
        logUpdates := [{ status := .success
                         error_message := none
                         extracted_data := some (.parsed d) }]
        shipmentInserted := some (mkShipmentRow input d) } ∧
    (mkShipmentRow input d).status = "pending" ∧
    (mkShipmentRow input d).parsed_by_ai = true ∧
    (mkShipmentRow input d).original_file_name = input.fileName ∧
    (mkShipmentRow input d).original_file_url = input.fileUrl ∧
    (∀ v, d.customer_name = some v → (mkShipmentRow input d).customer_name = v) ∧
    (∀ v, d.address = some v → (mkShipmentRow input d).address = v) ∧
    (∀ v, d.tracking_id = some v → v.falsy = false →
      (mkShipmentRow input d).tracking_id = v) ∧
    (d.tracking_id = none → (mkShipmentRow input d).tracking_id = .jnull) ∧
    (∀ v, d.delivery_date = some v → v.falsy = false →
      (mkShipmentRow input d).delivery_date = v) ∧
    (d.delivery_date = none → (mkShipmentRow input d).delivery_date = .jnull) ∧
    (∀ v, d.package_weight = some v → v.falsy = false →
      (mkShipmentRow input d).package_weight = v) ∧
    (d.package_weight = none → (mkShipmentRow input d).package_weight = .jnull) ∧
    (∀ v, d.notes = some v → v.falsy = false → (mkShipmentRow input d).notes = v) ∧
    (d.notes = none → (mkShipmentRow input d).notes = .jnull) := by
  refine ⟨by simp [extractShipmentData, hlog, hok, hparse, hcn, had, hins], rfl, rfl, rfl, rfl,
    ?_, ?_, ?_, ?_, ?_, ?_, ?_, ?_, ?_, ?_⟩
  all_goals
    intros
    simp_all [mkShipmentRow, undefToNull, jsOrNull]

theorem c3_success_roundtrip_witness :
    jsFalsy dZeroWeight.customer_name = false ∧
    jsFalsy dZeroWeight.address = false ∧
    ((extractShipmentData inputA envZeroWeight =
      { result := .success (mkShipmentRow inputA dZeroWeight) dZeroWeight
        logCreated := true
        upstreamCalled := true
        logUpdates := [{ status := .success
                         error_message := none
                         extracted_data := some (.parsed dZeroWeight) }]
        shipmentInserted := some (mkShipmentRow inputA dZeroWeight) }) ∧
     (mkShipmentRow inputA dZeroWeight).status = "pending" ∧
     (mkShipmentRow inputA dZeroWeight).parsed_by_ai = true ∧
     (mkShipmentRow inputA dZeroWeight).original_file_name = inputA.fileName ∧
     (mkShipmentRow inputA dZeroWeight).original_file_url = inputA.fileUrl ∧
     (∀ v, dZeroWeight.customer_name = some v →
       (mkShipmentRow inputA dZeroWeight).customer_name = v) ∧
     (∀ v, dZeroWeight.address = some v →
       (mkShipmentRow inputA dZeroWeight).address = v) ∧
     (∀ v, dZeroWeight.tracking_id = some v → v.falsy = false →
       (mkShipmentRow inputA dZeroWeight).tracking_id = v) ∧
     (dZeroWeight.tracking_id = none →
       (mkShipmentRow inputA dZeroWeight).tracking_id = .jnull) ∧
     (∀ v, dZeroWeight.delivery_date = some v → v.falsy = false →
       (mkShipmentRow inputA dZeroWeight).delivery_date = v) ∧
     (dZeroWeight.delivery_date = none →
       (mkShipmentRow inputA dZeroWeight).delivery_date = .jnull) ∧
     (∀ v, dZeroWeight.package_weight = some v → v.falsy = false →
       (mkShipmentRow inputA dZeroWeight).package_weight = v) ∧
     (dZeroWeight.package_weight = none →
       (mkShipmentRow inputA dZeroWeight).package_weight = .jnull) ∧
     (∀ v, dZeroWeight.notes = some v → v.falsy = false →
       (mkShipmentRow inputA dZeroWeight).notes = v) ∧
     (dZeroWeight.notes = none →
       (mkShipmentRow inputA dZeroWeight).notes = .jnull)) :=
  ⟨rfl, rfl, c3_success_roundtrip inputA envZeroWeight dZeroWeight rfl rfl rfl rfl rfl rfl⟩

/-- C10: when an optional field is present in the parsed payload but
holds a falsy JSON value (such as 0 or the empty string), the inserted
shipment row stores null for that field, because the insert goes
through the JavaScript expression value-or-null. -/
theorem c10_falsy_optional_stored_null (input : RequestInput) (env : Env) (d : ExtractedData)
    (hlog : env.logInsertError = none) (hok : env.upstreamOk = true)
    (hparse : env.parseResult = some d)
    (hcn : jsFalsy d.customer_name = false) (had : jsFalsy d.address = false)
    (hins : env.shipmentInsertError = none) :
    (∀ v, d.tracking_id = some v → v.falsy = true →
      (extractShipmentData input env).shipmentInserted.map ShipmentRow.tracking_id
        = some .jnull) ∧
    (∀ v, d.delivery_date = some v → v.falsy = true →
      (extractShipmentData input env).shipmentInserted.map ShipmentRow.delivery_date
        = some .jnull) ∧
    (∀ v, d.package_weight = some v → v.falsy = true →
      (extractShipmentData input env).shipmentInserted.map ShipmentRow.package_weight
        = some .jnull) ∧
    (∀ v, d.notes = some v → v.falsy = true →
      (extractShipmentData input env).shipmentInserted.map ShipmentRow.notes
        = some .jnull) := by
  refine ⟨?_, ?_, ?_, ?_⟩
  all_goals
    intro v hv hf
    simp [extractShipmentData, hlog, hok, hparse, hcn, had, hins, mkShipmentRow,
      jsOrNull, hv, hf]

theorem c10_falsy_optional_stored_null_witness :
    dZeroWeight.package_weight = some (.jnum 0) ∧
    (JVal.jnum 0).falsy = true ∧
    (extractShipmentData inputA envZeroWeight).shipmentInserted.map ShipmentRow.package_weight
      = some .jnull :=
  ⟨rfl, rfl,
    (c10_falsy_optional_stored_null inputA envZeroWeight dZeroWeight
      rfl rfl rfl rfl rfl rfl).2.2.1 (.jnum 0) rfl rfl⟩

/-- C8: within one extraction call, a shipment row is inserted if and
only if the attempt receives a status-success update; any inserted row
comes from a payload that parsed and passed the required-field
validation; and whenever the attempt is updated to failed, no shipment
row was inserted. -/
theorem c8_shipment_iff_success (input : RequestInput) (env : Env) :
    ((extractShipmentData input env).shipmentInserted.isSome ↔
      ∃ u ∈ (extractShipmentData input env).logUpdates, u.status = .success) ∧
    (∀ row, (extractShipmentData input env).shipmentInserted = some row →
      ∃ d, env.parseResult = some d ∧ jsFalsy d.customer_name = false ∧
        jsFalsy d.address = false ∧ row = mkShipmentRow input d) ∧
    (∀ u ∈ (extractShipmentData input env).logUpdates, u.status = .failed →
      (extractShipmentData input env).shipmentInserted = none) := by
  obtain ⟨le, uo, us, ut, pr, se⟩ := env
  cases le with
  | some msg => simp [extractShipmentData]
  | none =>
    cases uo with
    | false => simp [extractShipmentData]
    | true =>
      cases pr with
      | none => simp [extractShipmentData]
      | some d =>
        by_cases hv : (jsFalsy d.customer_name || jsFalsy d.address) = true
        · simp [extractShipmentData, hv]
        · simp only [Bool.or_eq_true, not_or, Bool.not_eq_true] at hv
          cases se with
          | some msg => simp [extractShipmentData, hv.1, hv.2]
          | none =>
            refine ⟨by simp [extractShipmentData, hv.1, hv.2], ?_, ?_⟩
            · intro row hrow
              refine ⟨d, rfl, hv.1, hv.2, ?_⟩
              simp [extractShipmentData, hv.1, hv.2] at hrow
              exact hrow.symm
            · intro u hu hf
              simp [extractShipmentData, hv.1, hv.2] at hu
              rw [hu] at hf
              simp at hf

theorem c8_shipment_iff_success_witness :
    ((extractShipmentData inputA envZeroWeight).shipmentInserted.isSome ↔
      ∃ u ∈ (extractShipmentData inputA envZeroWeight).logUpdates, u.status = .success) ∧
    (∀ row, (extractShipmentData inputA envZeroWeight).shipmentInserted = some row →
      ∃ d, envZeroWeight.parseResult = some d ∧ jsFalsy d.customer_name = false ∧
        jsFalsy d.address = false ∧ row = mkShipmentRow inputA d) ∧
    (∀ u ∈ (extractShipmentData inputA envZeroWeight).logUpdates, u.status = .failed →
      (extractShipmentData inputA envZeroWeight).shipmentInserted = none) :=
  c8_shipment_iff_success inputA envZeroWeight

/-- C9: the pasted-email path performs no file-store write, generates
the synthetic file name from the current time, and invokes the edge
function with an absent (null) file url. -/
theorem c9_email_no_store_write (content : String) (now : Nat)
    (h : (jsTrim content == "") = false) :
    handleEmailExtraction content now =
      { invoked := some { fileContent := content
                          fileName := "email-" ++ toString now ++ ".txt"
                          fileUrl := none }
        storeWrites := [] } := by
  simp [handleEmailExtraction, extractDataFromFile, h]

theorem c9_email_no_store_write_witness :
    ((jsTrim "Ship to Jane Doe, 12 Oak St" == "") = false) ∧
    handleEmailExtraction "Ship to Jane Doe, 12 Oak St" 1700000000 =
      { invoked := some { fileContent := "Ship to Jane Doe, 12 Oak St"
                          fileName := "email-1700000000.txt"
                          fileUrl := none }
        storeWrites := [] } :=
  ⟨by decide, c9_email_no_store_write "Ship to Jane Doe, 12 Oak St" 1700000000 (by decide)⟩

/-- C1 (code bug): on upstream failure (response not ok) the handler
throws before any log update; the catch block only returns the 500
response.  Concretely, with upstream status 500, the attempt row is
created, the flow exits with the upstream error, and the list of
updates applied to the attempt is empty — the attempt stays in status
processing forever, violating the exactly-once terminal-update
invariant. -/
theorem c1_upstream_failure_attempt_stuck_processing :
    extractShipmentData inputA
      { logInsertError := none, upstreamOk := false, upstreamStatus := 500,
        upstreamText := "", parseResult := none, shipmentInsertError := none } =
      { result := .failure "OpenAI API error: 500"
        logCreated := true
        upstreamCalled := true
        logUpdates := []
        shipmentInserted := none } := rfl

/-- C2 (code bug): on upstream failure the error surfaced to the caller
does carry the upstream status and nothing is retried, but the attempt
record receives no update at all — in particular it is never set to
status failed, contrary to the claim.  Evaluated at upstream status
502. -/
theorem c2_upstream_failure_not_recorded :
    (extractShipmentData inputA
      { logInsertError := none, upstreamOk := false, upstreamStatus := 502,
        upstreamText := "", parseResult := none, shipmentInsertError := none }).result
      = .failure "OpenAI API error: 502" ∧
    (extractShipmentData inputA
      { logInsertError := none, upstreamOk := false, upstreamStatus := 502,
        upstreamText := "", parseResult := none, shipmentInsertError := none }).logCreated
      = true ∧
    (extractShipmentData inputA
      { logInsertError := none, upstreamOk := false, upstreamStatus := 502,
        upstreamText := "", parseResult := none, shipmentInsertError := none }).logUpdates
      = [] :=
  ⟨rfl, rfl, rfl⟩

end ShipParse
